import Mathlib

/-!
Verification of the mask-compositing step of the selection-bias image
pipeline (`src/step5_create_masked.py`).

A numpy 2-D float array is embedded as a `Field`: an explicit height and
width together with a total data function `Nat → Nat → ℚ`; only the values
at in-bounds coordinates `(y, x)` with `y < h`, `x < w` are meaningful.
Scalar samples are rationals, standing in for the exact real values the
spec reasons about (exact equality with 0.0, strict comparison with the
threshold).

`create_masked_stipple` mirrors the Python source line by line:
shape check raising `ValueError` (embedded as `ShapeMismatchError`),
copy of the stipple image, in-place overwrite with 1.0 on the region
where `mask_img < threshold`, and the two `np.sum` counts over boolean
arrays (`total_stipples`, `removed_count`).
-/

/-- A 2-D grayscale field: height, width, and sample values. Values at
coordinates outside `[0,h) × [0,w)` are junk and never observed. -/
structure GrayscaleField where
  h : Nat
  w : Nat
  data : Nat → Nat → ℚ

/-- The shape of a field, as numpy reports it: `(height, width)`. -/
def GrayscaleField.shape (a : GrayscaleField) : Nat × Nat := (a.h, a.w)

/-- Observational equality of fields: same shape and same samples at every
in-bounds coordinate. -/
def GrayscaleField.EqOn (a b : GrayscaleField) : Prop :=
  a.h = b.h ∧ a.w = b.w ∧ ∀ y < a.h, ∀ x < a.w, a.data y x = b.data y x

instance (a b : GrayscaleField) : Decidable (a.EqOn b) := by
  unfold GrayscaleField.EqOn; infer_instance

/-- The error raised when the two input shapes differ; it carries both
shapes, as the Python `ValueError` message does. -/
structure ShapeMismatchError where
  stipple_shape : Nat × Nat
  mask_shape : Nat × Nat
deriving DecidableEq

/-- The boolean array `mask_region = mask_img < threshold` from the source,
read at coordinate `(y, x)`. -/
def mask_region (mask_img : GrayscaleField) (threshold : ℚ) (y x : Nat) : Bool :=
  decide (mask_img.data y x < threshold)

/-- The value of `np.sum` applied to a boolean `h × w` array given by the
predicate `p`: the number of `True` entries, summed row by row. -/
def boolSum (hh ww : Nat) (p : Nat → Nat → Bool) : Nat :=
  ∑ y ∈ Finset.range hh, ∑ x ∈ Finset.range ww, (if p y x then 1 else 0)

/-- The boolean array `stipple_img == 0.0` from the source, read at `(y, x)`. -/
def is_ink (stipple_img : GrayscaleField) (y x : Nat) : Bool :=
  decide (stipple_img.data y x = 0)

/-- Result of one composition call. The output field and the two counts are
exactly the values the source computes (`masked_stipple`, `total_stipples`,
`removed_count`). Modelled from the spec: the Python function returns only
the `masked_stipple` array and discards the two counts after a disabled
debug print; the spec's `CompositionResult` contract elevates those same
internally computed counts to the return value, which this structure
realises. -/
structure CompositionResult where
  output : GrayscaleField
  total_ink_samples : Nat
  removed_ink_samples : Nat

/-- Embedding of `create_masked_stipple(stipple_img, mask_img, threshold)`
from `src/step5_create_masked.py` (the Python default for `threshold` is
0.5). Raising `ValueError` on a shape mismatch becomes returning
`Except.error`; the copy followed by the in-place assignment
`masked_stipple[mask_region] = 1.0` becomes the pointwise function that is
`1` on the region and the original stipple value elsewhere. -/
def create_masked_stipple (stipple_img mask_img : GrayscaleField) (threshold : ℚ) :
    Except ShapeMismatchError CompositionResult :=
  if stipple_img.shape ≠ mask_img.shape then
    Except.error ⟨stipple_img.shape, mask_img.shape⟩
  else
    let masked_stipple : GrayscaleField :=
      { h := stipple_img.h, w := stipple_img.w,
        data := fun y x =>
          if mask_region mask_img threshold y x then 1 else stipple_img.data y x }
    let removed_count : Nat :=
      boolSum stipple_img.h stipple_img.w
        (fun y x => is_ink stipple_img y x && mask_region mask_img threshold y x)
    let total_stipples : Nat :=
      boolSum stipple_img.h stipple_img.w (fun y x => is_ink stipple_img y x)
    Except.ok ⟨masked_stipple, total_stipples, removed_count⟩

/-! ### Concrete fields used by scenario theorems and witnesses -/

/-- The 4×4 all-ink stippled field of the spec's scenario (all samples 0.0). -/
def stippleAllInk4 : GrayscaleField :=
  { h := 4, w := 4, data := fun _ _ => 0 }

/-- The 4×4 mask of the spec's scenario: left two columns 0.0, right two 1.0. -/
def maskHalf4 : GrayscaleField :=
  { h := 4, w := 4, data := fun _ x => if x < 2 then 0 else 1 }

/-- A 2×2 stippled field with one ink sample at (0,0) and a 0.5 sample at (1,1). -/
def stippleSmall : GrayscaleField :=
  { h := 2, w := 2, data := fun y x => if y = 0 ∧ x = 0 then 0 else if y = 1 ∧ x = 1 then 1/2 else 1 }

/-- A 2×2 mask whose (0,0) sample is 0.0 and whose other samples equal 0.5
exactly, probing the strict-inequality boundary at threshold 0.5. -/
def maskBoundary : GrayscaleField :=
  { h := 2, w := 2, data := fun y x => if y = 0 ∧ x = 0 then 0 else 1/2 }

/-- A 3×2 field, used to exercise the shape-mismatch branch. -/
def fieldThreeByTwo : GrayscaleField :=
  { h := 3, w := 2, data := fun _ _ => 1 }

/-- Helper: on matching shapes the call succeeds, and the three components of
the result are the terms the source builds. Shared by the claim theorems
below. -/
theorem create_masked_stipple_ok (s m : GrayscaleField) (t : ℚ)
    (hsh : s.shape = m.shape) :
    create_masked_stipple s m t = Except.ok
      ⟨⟨s.h, s.w, fun y x => if mask_region m t y x then 1 else s.data y x⟩,
       boolSum s.h s.w (fun y x => is_ink s y x),
       boolSum s.h s.w (fun y x => is_ink s y x && mask_region m t y x)⟩ := by
  unfold create_masked_stipple
  simp [hsh]

/-! ### C1 — pointwise masking behavior -/

/-- C1: for same-shaped stippled and mask fields and any threshold, the call
succeeds and returns an output of the stippled field's shape that equals 1.0
wherever `mask < threshold` (strict: a mask sample equal to the threshold is
not masked) and equals the stippled input exactly everywhere else. -/
theorem compose_pointwise (s m : GrayscaleField) (t : ℚ)
    (hsh : s.shape = m.shape) :
    ∃ r, create_masked_stipple s m t = Except.ok r ∧
      r.output.shape = s.shape ∧
      (∀ y x, m.data y x < t → r.output.data y x = 1) ∧
      (∀ y x, ¬ m.data y x < t → r.output.data y x = s.data y x) := by
  refine ⟨_, create_masked_stipple_ok s m t hsh, ?_, ?_, ?_⟩
  · simp [GrayscaleField.shape]
  · intro y x hlt
    simp [mask_region, hlt]
  · intro y x hge
    simp [mask_region, hge]

/-- Witness for C1 at a concrete input: the 2×2 boundary mask against the
2×2 stippled field at threshold 0.5; in particular the mask samples equal to
0.5 are not masked there. -/
theorem compose_pointwise_witness :
    ∃ r, create_masked_stipple stippleSmall maskBoundary (1/2) = Except.ok r ∧
      r.output.shape = stippleSmall.shape ∧
      (∀ y x, maskBoundary.data y x < 1/2 → r.output.data y x = 1) ∧
      (∀ y x, ¬ maskBoundary.data y x < 1/2 →
        r.output.data y x = stippleSmall.data y x) :=
  compose_pointwise stippleSmall maskBoundary (1/2) (by decide)

/-! ### C3 — shape mismatch raises, carrying both shapes -/

/-- C3: when the two input fields' shapes differ, the call fails with a
`ShapeMismatchError` carrying the stippled shape and the mask shape, and no
`CompositionResult` is produced. -/
theorem compose_shape_mismatch (s m : GrayscaleField) (t : ℚ)
    (hne : s.shape ≠ m.shape) :
    create_masked_stipple s m t =
      Except.error ⟨s.shape, m.shape⟩ := by
  unfold create_masked_stipple
  simp [hne]

/-- Witness for C3: a 4×4 field against a 3×2 field fails with the error
naming both shapes. -/
theorem compose_shape_mismatch_witness :
    create_masked_stipple stippleAllInk4 fieldThreeByTwo (1/2) =
      Except.error ⟨(4, 4), (3, 2)⟩ :=
  compose_shape_mismatch stippleAllInk4 fieldThreeByTwo (1/2) (by decide)

/-! ### C2 — the two counts are exact coordinate counts -/

/-- Helper: the row-by-row boolean sum is the cardinality of the set of
coordinates satisfying the predicate. -/
theorem boolSum_eq_card (hh ww : Nat) (p : Nat → Nat → Bool) :
    boolSum hh ww p =
      ((Finset.range hh ×ˢ Finset.range ww).filter fun q => p q.1 q.2).card := by
  rw [Finset.card_filter, Finset.sum_product]
  rfl

/-- C2: on matching shapes the call returns, besides the output field, the
exact integer count of coordinates whose stippled sample equals 0 (the ink
value) and the exact integer count of coordinates that are ink and lie in
the masked region. -/
theorem compose_counts (s m : GrayscaleField) (t : ℚ)
    (hsh : s.shape = m.shape) :
    ∃ r, create_masked_stipple s m t = Except.ok r ∧
      r.total_ink_samples =
        ((Finset.range s.h ×ˢ Finset.range s.w).filter
          (fun q => s.data q.1 q.2 = 0)).card ∧
      r.removed_ink_samples =
        ((Finset.range s.h ×ˢ Finset.range s.w).filter
          (fun q => s.data q.1 q.2 = 0 ∧ m.data q.1 q.2 < t)).card := by
  refine ⟨_, create_masked_stipple_ok s m t hsh, ?_, ?_⟩
  · show boolSum s.h s.w _ = _
    rw [boolSum_eq_card]
    simp [is_ink]
  · show boolSum s.h s.w _ = _
    rw [boolSum_eq_card]
    congr 1
    refine Finset.filter_congr fun q _ => ?_
    simp [is_ink, mask_region]

/-- Witness for C2: on the 4×4 scenario inputs both counts match the
coordinate cardinalities. -/
theorem compose_counts_witness :
    ∃ r, create_masked_stipple stippleAllInk4 maskHalf4 (1/2) = Except.ok r ∧
      r.total_ink_samples =
        ((Finset.range stippleAllInk4.h ×ˢ Finset.range stippleAllInk4.w).filter
          (fun q => stippleAllInk4.data q.1 q.2 = 0)).card ∧
      r.removed_ink_samples =
        ((Finset.range stippleAllInk4.h ×ˢ Finset.range stippleAllInk4.w).filter
          (fun q => stippleAllInk4.data q.1 q.2 = 0 ∧
            maskHalf4.data q.1 q.2 < 1/2)).card :=
  compose_counts stippleAllInk4 maskHalf4 (1/2) (by decide)

/-! ### C4 — the 4×4 half-mask scenario -/

/-- C4: composing the 4×4 all-ink stippled field with the half-black mask at
threshold 0.5 yields an output whose left two columns are 1.0 and right two
columns are 0.0, with 16 total ink samples of which 8 were removed. -/
theorem compose_scenario_4x4 :
    ∃ r, create_masked_stipple stippleAllInk4 maskHalf4 (1/2) = Except.ok r ∧
      r.output.EqOn ⟨4, 4, fun _ x => if x < 2 then 1 else 0⟩ ∧
      r.total_ink_samples = 16 ∧ r.removed_ink_samples = 8 := by
  refine ⟨_, create_masked_stipple_ok stippleAllInk4 maskHalf4 (1/2) (by decide),
    ?_, ?_, ?_⟩
  · refine ⟨rfl, rfl, ?_⟩
    intro y hy x hx
    by_cases h : x < 2 <;>
      norm_num [mask_region, maskHalf4, stippleAllInk4, h]
  · simp only [boolSum, Finset.sum_range_succ, Finset.sum_range_zero]
    norm_num [is_ink, stippleAllInk4]
  · simp only [boolSum, Finset.sum_range_succ, Finset.sum_range_zero]
    norm_num [-Finset.sum_boole, is_ink, mask_region, stippleAllInk4, maskHalf4]
    simp only [Finset.sum_range_succ, Finset.sum_range_zero]
    norm_num

/-! ### C5 — count inequality and the fully-masked equality case -/

/-- C5: on matching shapes the counts satisfy
`0 ≤ removed_ink_samples ≤ total_ink_samples`, with equality whenever the
threshold masks every in-bounds coordinate. -/
theorem removed_le_total (s m : GrayscaleField) (t : ℚ)
    (hsh : s.shape = m.shape) :
    ∃ r, create_masked_stipple s m t = Except.ok r ∧
      0 ≤ r.removed_ink_samples ∧
      r.removed_ink_samples ≤ r.total_ink_samples ∧
      ((∀ y < s.h, ∀ x < s.w, m.data y x < t) →
        r.removed_ink_samples = r.total_ink_samples) := by
  refine ⟨_, create_masked_stipple_ok s m t hsh, Nat.zero_le _, ?_, ?_⟩
  · show boolSum s.h s.w _ ≤ boolSum s.h s.w _
    unfold boolSum
    refine Finset.sum_le_sum fun y _ => Finset.sum_le_sum fun x _ => ?_
    cases h : is_ink s y x <;> cases h2 : mask_region m t y x <;> simp [h, h2]
  · intro hall
    show boolSum s.h s.w _ = boolSum s.h s.w _
    unfold boolSum
    refine Finset.sum_congr rfl fun y hy => Finset.sum_congr rfl fun x hx => ?_
    have hm : mask_region m t y x = true := by
      simpa [mask_region] using
        hall y (Finset.mem_range.mp hy) x (Finset.mem_range.mp hx)
    simp [hm]

/-- Witness for C5: the 4×4 all-ink stipple against the all-zero mask at
threshold 0.5 masks everything, so the bounds and the equality case hold. -/
theorem removed_le_total_witness :
    ∃ r, create_masked_stipple stippleAllInk4
        ⟨4, 4, fun _ _ => 0⟩ (1/2) = Except.ok r ∧
      0 ≤ r.removed_ink_samples ∧
      r.removed_ink_samples ≤ r.total_ink_samples ∧
      ((∀ y < stippleAllInk4.h, ∀ x < stippleAllInk4.w,
          (⟨4, 4, fun _ _ => 0⟩ : GrayscaleField).data y x < 1/2) →
        r.removed_ink_samples = r.total_ink_samples) :=
  removed_le_total stippleAllInk4 ⟨4, 4, fun _ _ => 0⟩ (1/2) (by decide)

/-! ### C6 — degenerate thresholds are defined behavior -/

/-- C6: for mask values within `[0, 1]`, a threshold at or below 0 masks no
coordinate, so the output observationally equals the stippled input, and a
threshold above 1 masks every coordinate, so the output is entirely 1.0.
Neither case is an error. -/
theorem degenerate_thresholds (s m : GrayscaleField) (t : ℚ)
    (hsh : s.shape = m.shape)
    (hm : ∀ y < m.h, ∀ x < m.w, 0 ≤ m.data y x ∧ m.data y x ≤ 1) :
    ∃ r, create_masked_stipple s m t = Except.ok r ∧
      (t ≤ 0 → r.output.EqOn s) ∧
      (1 < t → ∀ y < r.output.h, ∀ x < r.output.w, r.output.data y x = 1) := by
  have hh : s.h = m.h := congrArg Prod.fst hsh
  have hw : s.w = m.w := congrArg Prod.snd hsh
  refine ⟨_, create_masked_stipple_ok s m t hsh, ?_, ?_⟩
  · intro ht
    refine ⟨rfl, rfl, ?_⟩
    intro y hy x hx
    have hge : ¬ m.data y x < t :=
      not_lt.mpr (ht.trans (hm y (hh ▸ hy) x (hw ▸ hx)).1)
    simp [mask_region, hge]
  · intro ht y hy x hx
    have hlt : m.data y x < t :=
      lt_of_le_of_lt (hm y (hh ▸ hy) x (hw ▸ hx)).2 ht
    simp [mask_region, hlt]

/-- Witness for C6: the half-black 4×4 mask has values in `[0, 1]`; at
threshold 0 the output observationally equals the all-ink input and the
full-masking implication holds vacuously. -/
theorem degenerate_thresholds_witness :
    ∃ r, create_masked_stipple stippleAllInk4 maskHalf4 0 = Except.ok r ∧
      ((0:ℚ) ≤ 0 → r.output.EqOn stippleAllInk4) ∧
      ((1:ℚ) < 0 → ∀ y < r.output.h, ∀ x < r.output.w, r.output.data y x = 1) :=
  degenerate_thresholds stippleAllInk4 maskHalf4 0 (by decide) (by decide)

/-! ### C7 — the call never mutates its inputs -/

/-- State of the three named arrays in the body of the Python function,
used to track mutation explicitly: the two caller-owned input buffers and
the local `masked_stipple` buffer. -/
structure ComposeState where
  stipple_img : GrayscaleField
  mask_img : GrayscaleField
  masked_stipple : GrayscaleField

/-- The statement `masked_stipple = stipple_img.copy()`: the local buffer
becomes a copy of the input; the input buffers are untouched. -/
def copyStep (st : ComposeState) : ComposeState :=
  { st with masked_stipple := st.stipple_img }

/-- The statement `masked_stipple[mask_region] = 1.0`: an in-place update of
the local buffer only; the two input buffers are untouched. -/
def assignStep (t : ℚ) (st : ComposeState) : ComposeState :=
  { st with masked_stipple :=
      { h := st.masked_stipple.h, w := st.masked_stipple.w,
        data := fun y x =>
          if mask_region st.mask_img t y x then 1
          else st.masked_stipple.data y x } }

/-- The imperative body of `create_masked_stipple` as explicit state
passing: check shapes, then copy, then overwrite the copy in place. The
initial value of the local buffer slot (before the copy assigns it) is a
dummy empty field. -/
def run_create_masked (s m : GrayscaleField) (t : ℚ) :
    Except ShapeMismatchError ComposeState :=
  if s.shape ≠ m.shape then Except.error ⟨s.shape, m.shape⟩
  else Except.ok (assignStep t (copyStep ⟨s, m, ⟨0, 0, fun _ _ => 0⟩⟩))

/-- C7: running the imperative body leaves both input buffers holding
exactly the values they held before the call — the in-place write lands on
the fresh copy, which is the returned output field of the functional
embedding. -/
theorem compose_no_mutation (s m : GrayscaleField) (t : ℚ)
    (hsh : s.shape = m.shape) :
    ∃ st, run_create_masked s m t = Except.ok st ∧
      st.stipple_img = s ∧
      st.mask_img = m ∧
      create_masked_stipple s m t = Except.ok
        ⟨st.masked_stipple,
         boolSum s.h s.w (fun y x => is_ink s y x),
         boolSum s.h s.w (fun y x => is_ink s y x && mask_region m t y x)⟩ := by
  refine ⟨assignStep t (copyStep ⟨s, m, ⟨0, 0, fun _ _ => 0⟩⟩), ?_, rfl, rfl, ?_⟩
  · unfold run_create_masked
    simp [hsh]
  · exact create_masked_stipple_ok s m t hsh

/-- Witness for C7: on the 4×4 scenario inputs the imperative run returns
with both input buffers intact and the copy as the output. -/
theorem compose_no_mutation_witness :
    ∃ st, run_create_masked stippleAllInk4 maskHalf4 (1/2) = Except.ok st ∧
      st.stipple_img = stippleAllInk4 ∧
      st.mask_img = maskHalf4 ∧
      create_masked_stipple stippleAllInk4 maskHalf4 (1/2) = Except.ok
        ⟨st.masked_stipple,
         boolSum stippleAllInk4.h stippleAllInk4.w
           (fun y x => is_ink stippleAllInk4 y x),
         boolSum stippleAllInk4.h stippleAllInk4.w
           (fun y x => is_ink stippleAllInk4 y x &&
             mask_region maskHalf4 (1/2) y x)⟩ :=
  compose_no_mutation stippleAllInk4 maskHalf4 (1/2) (by decide)

/-! ### C8 — purity and determinism -/

/-- Helper: boolean sums agree when the predicates agree at every in-bounds
coordinate. -/
theorem boolSum_congr_pred (hh ww : Nat) (p q : Nat → Nat → Bool)
    (hpq : ∀ y < hh, ∀ x < ww, p y x = q y x) :
    boolSum hh ww p = boolSum hh ww q := by
  unfold boolSum
  refine Finset.sum_congr rfl fun y hy => Finset.sum_congr rfl fun x hx => ?_
  rw [hpq y (Finset.mem_range.mp hy) x (Finset.mem_range.mp hx)]

/-- C8: the call is a pure function of the observable values of its
arguments. Two invocations on observationally equal stippled fields,
observationally equal masks, and the same threshold either both fail with
the same error or both return, with observationally equal output fields and
identical counts. -/
theorem compose_deterministic (s1 m1 s2 m2 : GrayscaleField) (t : ℚ)
    (hs : s1.EqOn s2) (hm : m1.EqOn m2) :
    (s1.shape ≠ m1.shape →
      create_masked_stipple s1 m1 t = Except.error ⟨s1.shape, m1.shape⟩ ∧
      create_masked_stipple s2 m2 t = Except.error ⟨s1.shape, m1.shape⟩) ∧
    (s1.shape = m1.shape →
      ∃ r1 r2, create_masked_stipple s1 m1 t = Except.ok r1 ∧
        create_masked_stipple s2 m2 t = Except.ok r2 ∧
        r1.output.EqOn r2.output ∧
        r1.total_ink_samples = r2.total_ink_samples ∧
        r1.removed_ink_samples = r2.removed_ink_samples) := by
  obtain ⟨hsh, hsw, hsd⟩ := hs
  obtain ⟨hmh, hmw, hmd⟩ := hm
  have hs2 : s2.shape = s1.shape := by
    simp [GrayscaleField.shape, hsh, hsw]
  have hm2 : m2.shape = m1.shape := by
    simp [GrayscaleField.shape, hmh, hmw]
  constructor
  · intro hne
    have hne2 : s2.shape ≠ m2.shape := by
      rw [hs2, hm2]; exact hne
    constructor
    · unfold create_masked_stipple
      simp [hne]
    · unfold create_masked_stipple
      simp [hne2, hs2, hm2, hne]
  · intro heq
    have heq2 : s2.shape = m2.shape := by rw [hs2, hm2]; exact heq
    have hh1 : s1.h = m1.h := congrArg Prod.fst heq
    have hw1 : s1.w = m1.w := congrArg Prod.snd heq
    refine ⟨_, _, create_masked_stipple_ok s1 m1 t heq,
      create_masked_stipple_ok s2 m2 t heq2, ?_, ?_, ?_⟩
    · refine ⟨hsh, hsw, ?_⟩
      intro y hy x hx
      have hmr : mask_region m1 t y x = mask_region m2 t y x := by
        simp only [mask_region]
        rw [hmd y (hh1 ▸ hy) x (hw1 ▸ hx)]
      by_cases hc : mask_region m1 t y x = true
      · simp [hc, hmr ▸ hc]
      · have hc2 : ¬ mask_region m2 t y x = true := hmr ▸ hc
        simp [hc, hc2, hsd y hy x hx]
    · show boolSum s1.h s1.w _ = boolSum s2.h s2.w _
      rw [← hsh, ← hsw]
      refine boolSum_congr_pred _ _ _ _ fun y hy x hx => ?_
      simp only [is_ink]
      rw [hsd y hy x hx]
    · show boolSum s1.h s1.w _ = boolSum s2.h s2.w _
      rw [← hsh, ← hsw]
      refine boolSum_congr_pred _ _ _ _ fun y hy x hx => ?_
      simp only [is_ink, mask_region]
      rw [hsd y hy x hx, hmd y (hh1 ▸ hy) x (hw1 ▸ hx)]

/-- Witness for C8: two observationally equal copies of the 4×4 scenario
inputs (one with different out-of-bounds junk) produce equal results. -/
theorem compose_deterministic_witness :
    ((stippleAllInk4.shape ≠ maskHalf4.shape →
      create_masked_stipple stippleAllInk4 maskHalf4 (1/2) =
        Except.error ⟨stippleAllInk4.shape, maskHalf4.shape⟩ ∧
      create_masked_stipple ⟨4, 4, fun y _ => if y < 4 then 0 else 7⟩
          ⟨4, 4, fun y x => if y < 4 then (if x < 2 then 0 else 1) else 9⟩ (1/2) =
        Except.error ⟨stippleAllInk4.shape, maskHalf4.shape⟩) ∧
    (stippleAllInk4.shape = maskHalf4.shape →
      ∃ r1 r2, create_masked_stipple stippleAllInk4 maskHalf4 (1/2) = Except.ok r1 ∧
        create_masked_stipple ⟨4, 4, fun y _ => if y < 4 then 0 else 7⟩
          ⟨4, 4, fun y x => if y < 4 then (if x < 2 then 0 else 1) else 9⟩ (1/2) =
          Except.ok r2 ∧
        r1.output.EqOn r2.output ∧
        r1.total_ink_samples = r2.total_ink_samples ∧
        r1.removed_ink_samples = r2.removed_ink_samples)) :=
  compose_deterministic stippleAllInk4 maskHalf4
    ⟨4, 4, fun y _ => if y < 4 then 0 else 7⟩
    ⟨4, 4, fun y x => if y < 4 then (if x < 2 then 0 else 1) else 9⟩
    (1/2) (by decide) (by decide)

/-! ### C9 — masking is monotone in the threshold -/

/-- Helper: the boolean sum is monotone under pointwise implication of the
predicates. -/
theorem boolSum_le_of_imp (hh ww : Nat) (p q : Nat → Nat → Bool)
    (hpq : ∀ y x, p y x = true → q y x = true) :
    boolSum hh ww p ≤ boolSum hh ww q := by
  unfold boolSum
  refine Finset.sum_le_sum fun y _ => Finset.sum_le_sum fun x _ => ?_
  cases hp : p y x
  · simp
  · simp [hpq y x hp]

/-- C9: raising the threshold masks more. For thresholds `t1 ≤ t2`, every
coordinate masked at `t1` is masked at `t2`; for stippled values in
`[0, 1]` the output at `t2` dominates the output at `t1` pointwise; and the
removed-ink count at `t1` is at most the count at `t2`. -/
theorem compose_threshold_monotone (s m : GrayscaleField) (t1 t2 : ℚ)
    (hsh : s.shape = m.shape) (ht : t1 ≤ t2)
    (hs01 : ∀ y < s.h, ∀ x < s.w, 0 ≤ s.data y x ∧ s.data y x ≤ 1) :
    ∃ r1 r2, create_masked_stipple s m t1 = Except.ok r1 ∧
      create_masked_stipple s m t2 = Except.ok r2 ∧
      (∀ y x, mask_region m t1 y x = true → mask_region m t2 y x = true) ∧
      (∀ y < s.h, ∀ x < s.w, r1.output.data y x ≤ r2.output.data y x) ∧
      r1.removed_ink_samples ≤ r2.removed_ink_samples := by
  have hsub : ∀ y x, mask_region m t1 y x = true → mask_region m t2 y x = true := by
    intro y x h1
    simp only [mask_region, decide_eq_true_eq] at h1 ⊢
    exact lt_of_lt_of_le h1 ht
  refine ⟨_, _, create_masked_stipple_ok s m t1 hsh,
    create_masked_stipple_ok s m t2 hsh, hsub, ?_, ?_⟩
  · intro y hy x hx
    by_cases h2 : mask_region m t2 y x = true
    · by_cases h1 : mask_region m t1 y x = true
      · simp [h1, h2]
      · simp [h1, h2, (hs01 y hy x hx).2]
    · have h1 : ¬ mask_region m t1 y x = true := fun hc => h2 (hsub y x hc)
      simp [h1, h2]
  · show boolSum s.h s.w _ ≤ boolSum s.h s.w _
    refine boolSum_le_of_imp _ _ _ _ fun y x hp => ?_
    rcases Bool.and_eq_true_iff.mp hp with ⟨hi, hm1⟩
    exact Bool.and_eq_true_iff.mpr ⟨hi, hsub y x hm1⟩

/-- Witness for C9: the 4×4 scenario inputs at thresholds 0 and 1: the mask
subset relation, pointwise output domination, and the count inequality all
hold there. -/
theorem compose_threshold_monotone_witness :
    ∃ r1 r2, create_masked_stipple stippleAllInk4 maskHalf4 0 = Except.ok r1 ∧
      create_masked_stipple stippleAllInk4 maskHalf4 1 = Except.ok r2 ∧
      (∀ y x, mask_region maskHalf4 0 y x = true →
        mask_region maskHalf4 1 y x = true) ∧
      (∀ y < stippleAllInk4.h, ∀ x < stippleAllInk4.w,
        r1.output.data y x ≤ r2.output.data y x) ∧
      r1.removed_ink_samples ≤ r2.removed_ink_samples :=
  compose_threshold_monotone stippleAllInk4 maskHalf4 0 1
    (by decide) (by decide) (by decide)

/-! ### C10 — masking is idempotent -/

/-- C10: composing the output of a compose call with the same mask and the
same threshold returns that output unchanged — the second call's output
field equals the first call's output field. -/
theorem compose_idempotent (s m : GrayscaleField) (t : ℚ)
    (hsh : s.shape = m.shape) :
    ∃ r r2, create_masked_stipple s m t = Except.ok r ∧
      create_masked_stipple r.output m t = Except.ok r2 ∧
      r2.output = r.output := by
  refine ⟨_, _, create_masked_stipple_ok s m t hsh,
    create_masked_stipple_ok ⟨s.h, s.w, fun y x =>
      if mask_region m t y x then 1 else s.data y x⟩ m t hsh, ?_⟩
  simp only [GrayscaleField.mk.injEq]
  refine ⟨trivial, trivial, funext fun y => funext fun x => ?_⟩
  by_cases hc : mask_region m t y x = true <;> simp [hc]

/-- Witness for C10: on the 4×4 scenario inputs at threshold 0.5, composing
the output again with the same mask and threshold leaves it unchanged. -/
theorem compose_idempotent_witness :
    ∃ r r2, create_masked_stipple stippleAllInk4 maskHalf4 (1/2) = Except.ok r ∧
      create_masked_stipple r.output maskHalf4 (1/2) = Except.ok r2 ∧
      r2.output = r.output :=
  compose_idempotent stippleAllInk4 maskHalf4 (1/2) (by decide)
